import Mathlib

/-!
Shallow embedding of `src/mvp/run_demo.py` from the LLMPL repository.

The script is a demonstration launcher.  Its single function `main`:

  1. resolves the directory containing the script itself
     (`root = Path(__file__).resolve().parent`),
  2. forms the sibling paths `root / "llmpl_to_python.py"` (the compiler)
     and `root / "example_mvp.llmpl"` (the sample source),
  3. calls `subprocess.run([sys.executable, str(compiler), str(source),
     "--run"], cwd=root, check=False)` with stdout/stderr inherited,
  4. returns `result.returncode`,

and the module footer executes `raise SystemExit(main())`.

The embedding models portions of the POSIX/CPython runtime that the script
leans on: `subprocess.run`'s returncode/`check` semantics, the encoding of
signal-terminated children as negative returncodes, and the mapping from
`SystemExit(n)` to the observed process exit status.  Effects performed by
`main` are made explicit as a trace, so frame properties (exactly one child
spawned, no filesystem writes, no network, no existence pre-checks) are
statable.
-/

namespace RunDemo

/-- An absolute filesystem path, as its list of components below the
filesystem root (so `["home", "u", "f.py"]` denotes `/home/u/f.py`). -/
abbrev FsPath := List String

/-- `Path.parent`: drop the last component of an absolute path. -/
def FsPath.parent (p : FsPath) : FsPath := p.dropLast

/-- `dir / name` on paths: append one component. -/
def FsPath.join (p : FsPath) (name : String) : FsPath := p ++ [name]

/-- `str(path)`: render an absolute path in POSIX notation. -/
def FsPath.render (p : FsPath) : String := "/" ++ String.intercalate "/" p

/-- How a child process's standard streams are wired by `subprocess.run`.
`run_demo.py` passes no `stdout`/`stderr`/`capture_output` keyword, so the
child inherits the launcher's streams. -/
inductive StreamMode
  | inherit
  | pipe
  | devnull
  deriving DecidableEq, Repr

/-- One call to `subprocess.run`: the argument vector, the child's working
directory (`cwd=`), the `check=` flag, and the stream wiring. -/
structure Invocation where
  args : List String
  cwd : FsPath
  check : Bool
  stdout : StreamMode
  stderr : StreamMode
  deriving DecidableEq, Repr

/-- How the operating system disposes of one spawn request: the child could
not be created (an `OSError` such as `FileNotFoundError` is raised), or the
child ran and exited normally with a status byte, or the child was
terminated by a signal. -/
inductive SpawnOutcome
  | oserror
  | exited (code : Nat)
  | signaled (sig : Nat)
  deriving DecidableEq, Repr

/-- The behaviour of the surrounding operating system: what happens for
each possible spawn request. -/
abbrev OsBehavior := Invocation → SpawnOutcome

/-- CPython's `Popen.returncode` for a finished child: the exit status for
a normal exit, and `-N` for termination by signal `N`. `none` when the
child was never created. -/
def SpawnOutcome.returncode : SpawnOutcome → Option Int
  | .oserror => none
  | .exited code => some (code : Int)
  | .signaled sig => some (-(sig : Int))

/-- The outcome of one `subprocess.run` call as seen by the caller. -/
inductive RunResult
  | completed (returncode : Int)
  | raisedCalledProcessError (returncode : Int)
  | raisedOSError
  deriving DecidableEq, Repr

/-- Semantics of `subprocess.run`: an `OSError` from the spawn propagates;
otherwise, with `check=True` a nonzero returncode raises
`CalledProcessError`, and with `check=False` the `CompletedProcess` carries
the returncode verbatim. -/
def subprocessRun (os : OsBehavior) (inv : Invocation) : RunResult :=
  match (os inv).returncode with
  | none => .raisedOSError
  | some rc =>
      if inv.check ∧ rc ≠ 0 then .raisedCalledProcessError rc
      else .completed rc

/-- The launcher's environment: everything outside the script's own text
that its behaviour could draw on.  `launcherFile` is the value of
`Path(__file__).resolve()`: the physical absolute path of the script file;
per pathlib's contract `resolve()` makes the path absolute and eliminates
every symbolic link, so this value is independent of the working directory
and of which alias of the file was named on invocation.  `cwd` is the
caller's current working directory and `argv` the launcher's own
command-line arguments; the script reads neither. -/
structure Env where
  launcherFile : FsPath
  sysExecutable : String
  cwd : FsPath
  argv : List String
  deriving DecidableEq, Repr

/-- `root = Path(__file__).resolve().parent`: the anchor directory. -/
def rootDir (env : Env) : FsPath := env.launcherFile.parent

/-- `compiler = root / "llmpl_to_python.py"`. -/
def compilerPath (env : Env) : FsPath := (rootDir env).join "llmpl_to_python.py"

/-- `source = root / "example_mvp.llmpl"`. -/
def sourcePath (env : Env) : FsPath := (rootDir env).join "example_mvp.llmpl"

/-- The single `subprocess.run` request `main` builds:
`[sys.executable, str(compiler), str(source), "--run"]`, `cwd=root`,
`check=False`, streams inherited. -/
def mainInvocation (env : Env) : Invocation :=
  { args := [env.sysExecutable, (compilerPath env).render,
             (sourcePath env).render, "--run"]
    cwd := rootDir env
    check := false
    stdout := .inherit
    stderr := .inherit }

/-- A Python exception escaping `main`. -/
inductive PyError
  | calledProcessError (returncode : Int)
  | osError
  deriving DecidableEq, Repr

/-- An observable side effect of the launcher process.  Constructors beyond
`spawnChild` exist so that frame properties ("no filesystem writes, no
network, no existence pre-checks") are statable; `main` never emits them. -/
inductive Effect
  | spawnChild (inv : Invocation)
  | fsWrite (path : FsPath)
  | statFile (path : FsPath)
  | network
  deriving DecidableEq, Repr

/-- `main()` of `run_demo.py`: performs the one `subprocess.run` call and
returns `result.returncode`; an exception from `subprocess.run` propagates
(`main` has no handler).  The first component records the effects `main`
performs, in order. -/
def main (env : Env) (os : OsBehavior) : List Effect × Except PyError Int :=
  match subprocessRun os (mainInvocation env) with
  | .completed rc => ([.spawnChild (mainInvocation env)], .ok rc)
  | .raisedCalledProcessError rc =>
      ([.spawnChild (mainInvocation env)], .error (.calledProcessError rc))
  | .raisedOSError => ([.spawnChild (mainInvocation env)], .error .osError)

/-- The module footer `raise SystemExit(main())` together with CPython's
POSIX exit machinery: `SystemExit(n)` with an integer argument yields the
process status `n mod 256`, while any other uncaught exception makes the
interpreter print a traceback and exit with status 1. -/
def systemExitStatus : Except PyError Int → Nat
  | .error _ => 1
  | .ok rc => (rc % 256).toNat

/-- Exit status of one complete launcher run under OS behaviour `os`. -/
def launcherExitStatus (env : Env) (os : OsBehavior) : Nat :=
  systemExitStatus (main env os).2

/-- A concrete environment used by witnesses: the launcher resides at
`/repo/mvp/run_demo.py`, invoked from `/tmp` with no arguments. -/
def env₀ : Env :=
  { launcherFile := ["repo", "mvp", "run_demo.py"]
    sysExecutable := "/usr/bin/python3"
    cwd := ["tmp"]
    argv := [] }

/-- Helper: `run_demo.py` passes `check=False`. -/
theorem mainInvocation_check (env : Env) : (mainInvocation env).check = false := rfl

/-- Helper: when the child exits normally with code `c`, `main` performs
its one spawn and returns `c`. -/
theorem main_on_exited (env : Env) (os : OsBehavior) (c : Nat)
    (h : os (mainInvocation env) = .exited c) :
    main env os = ([.spawnChild (mainInvocation env)], .ok (c : Int)) := by
  have hrun : subprocessRun os (mainInvocation env) = .completed (c : Int) := by
    simp [subprocessRun, h, SpawnOutcome.returncode, mainInvocation_check]
  simp [main, hrun]

/-- Helper: when the spawn itself fails, `main` lets the `OSError`
propagate. -/
theorem main_on_oserror (env : Env) (os : OsBehavior)
    (h : os (mainInvocation env) = .oserror) :
    main env os = ([.spawnChild (mainInvocation env)], .error .osError) := by
  have hrun : subprocessRun os (mainInvocation env) = .raisedOSError := by
    simp [subprocessRun, h, SpawnOutcome.returncode]
  simp [main, hrun]

/-- C1: when the child exits normally with code `c` (any `c < 256`, so in
particular `c ∈ {0, 1, 2, 127}`), `main` returns `c` unmodified and the
launcher's own process exit status equals `c` exactly. -/
theorem exit_code_fidelity (env : Env) (os : OsBehavior) (c : Nat)
    (hc : c < 256) (h : os (mainInvocation env) = .exited c) :
    (main env os).2 = .ok (c : Int) ∧ launcherExitStatus env os = c := by
  refine ⟨by simp [main_on_exited env os c h], ?_⟩
  simp [launcherExitStatus, main_on_exited env os c h, systemExitStatus]
  omega

/-- Witness for C1 at the child exit codes 0, 1, 2 and 127. -/
theorem exit_code_fidelity_witness :
    ((main env₀ (fun _ => .exited 0)).2 = .ok ((0 : Nat) : Int) ∧
      launcherExitStatus env₀ (fun _ => .exited 0) = 0) ∧
    ((main env₀ (fun _ => .exited 1)).2 = .ok ((1 : Nat) : Int) ∧
      launcherExitStatus env₀ (fun _ => .exited 1) = 1) ∧
    ((main env₀ (fun _ => .exited 2)).2 = .ok ((2 : Nat) : Int) ∧
      launcherExitStatus env₀ (fun _ => .exited 2) = 2) ∧
    ((main env₀ (fun _ => .exited 127)).2 = .ok ((127 : Nat) : Int) ∧
      launcherExitStatus env₀ (fun _ => .exited 127) = 127) :=
  ⟨exit_code_fidelity env₀ _ 0 (by decide) rfl,
   exit_code_fidelity env₀ _ 1 (by decide) rfl,
   exit_code_fidelity env₀ _ 2 (by decide) rfl,
   exit_code_fidelity env₀ _ 127 (by decide) rfl⟩

/-- C2: on every invocation the argument vector handed to the child is
exactly `[runtime executable, compiler path, source path, "--run"]`, in
that order, and the one spawn `main` performs uses exactly that vector. -/
theorem argument_construction (env : Env) (os : OsBehavior) :
    (main env os).1 = [.spawnChild (mainInvocation env)] ∧
    (mainInvocation env).args =
      [env.sysExecutable, (compilerPath env).render,
       (sourcePath env).render, "--run"] := by
  refine ⟨?_, rfl⟩
  cases h : subprocessRun os (mainInvocation env) <;> simp [main, h]

/-- C3: for any two invocations whose launcher file resolves to the same
physical path — in particular invocations from different working
directories, or through distinct symbolic links, which `resolve()`
eliminates — the resolved compiler and sample-source paths coincide. -/
theorem path_anchoring (e₁ e₂ : Env) (h : e₁.launcherFile = e₂.launcherFile) :
    compilerPath e₁ = compilerPath e₂ ∧ sourcePath e₁ = sourcePath e₂ := by
  simp [compilerPath, sourcePath, rootDir, h]

/-- A second concrete environment: same launcher file as `env₀` but a
different working directory and nonempty argument list. -/
def env₁ : Env :=
  { launcherFile := ["repo", "mvp", "run_demo.py"]
    sysExecutable := "/usr/bin/python3"
    cwd := ["home", "alice", "work"]
    argv := ["--ignored"] }

/-- Witness for C3: two invocations from different working directories
resolve identical compiler and source paths. -/
theorem path_anchoring_witness :
    env₀.cwd ≠ env₁.cwd ∧
    (compilerPath env₀ = compilerPath env₁ ∧ sourcePath env₀ = sourcePath env₁) :=
  ⟨by decide, path_anchoring env₀ env₁ rfl⟩

/-- C4: the single child process `main` spawns has its working directory
set to the anchor directory, the directory containing the launcher file. -/
theorem child_working_directory (env : Env) (os : OsBehavior) :
    (main env os).1 = [.spawnChild (mainInvocation env)] ∧
    (mainInvocation env).cwd = env.launcherFile.parent := by
  refine ⟨?_, rfl⟩
  cases h : subprocessRun os (mainInvocation env) <;> simp [main, h]

/-- C5: whatever returncode the child finishes with — zero, nonzero, or
the negative encoding of a signal — `main` raises no exception and returns
it as a value (the `check=False` call never raises `CalledProcessError`). -/
theorem nonzero_exit_not_exceptional (env : Env) (os : OsBehavior) (rc : Int)
    (h : (os (mainInvocation env)).returncode = some rc) :
    (main env os).2 = .ok rc := by
  have hrun : subprocessRun os (mainInvocation env) = .completed rc := by
    simp [subprocessRun, h, mainInvocation_check]
  simp [main, hrun]

/-- Witness for C5 at the nonzero child exit code 7. -/
theorem nonzero_exit_not_exceptional_witness :
    (main env₀ (fun _ => .exited 7)).2 = .ok 7 :=
  nonzero_exit_not_exceptional env₀ _ 7 rfl

/-- C6: if the child process cannot be created (the spawn raises
`OSError`), or the spawned interpreter exits nonzero because the compiler
entry point is missing, the launcher's exit status is nonzero: spawn
failure is never masked as success. -/
theorem spawn_failure_nonzero (env : Env) (os : OsBehavior)
    (h : os (mainInvocation env) = .oserror ∨
      ∃ c : Nat, 0 < c ∧ c < 256 ∧ os (mainInvocation env) = .exited c) :
    launcherExitStatus env os ≠ 0 := by
  rcases h with h | ⟨c, hc0, hc, h⟩
  · simp [launcherExitStatus, main_on_oserror env os h, systemExitStatus]
  · simp [launcherExitStatus, main_on_exited env os c h, systemExitStatus]
    omega

/-- Witness for C6: a failing spawn yields a nonzero launcher status. -/
theorem spawn_failure_nonzero_witness :
    launcherExitStatus env₀ (fun _ => .oserror) ≠ 0 :=
  spawn_failure_nonzero env₀ _ (Or.inl rfl)

/-- C7: the compiler and sample-source references are each a fixed sibling
name joined onto the anchor directory — functions of the launcher's
resolved location alone, with no search or override — the source path is
placed into the child's arguments as is, and the trace shows `main`
queries nothing else (in particular it performs no existence check on the
source before passing it along). -/
theorem fixed_sibling_paths (env : Env) (os : OsBehavior) :
    compilerPath env = env.launcherFile.parent ++ ["llmpl_to_python.py"] ∧
    sourcePath env = env.launcherFile.parent ++ ["example_mvp.llmpl"] ∧
    (sourcePath env).render ∈ (mainInvocation env).args ∧
    (main env os).1 = [.spawnChild (mainInvocation env)] := by
  refine ⟨rfl, rfl, by simp [mainInvocation], ?_⟩
  cases h : subprocessRun os (mainInvocation env) <;> simp [main, h]

/-- C8: every run performs exactly one effect — the single child spawn —
so no filesystem write, stat or network effect ever appears in the trace;
the child's standard output and standard error are inherited unmodified,
and the returned value is determined by that child's completion, which is
the synchronous wait. -/
theorem single_spawn_frame (env : Env) (os : OsBehavior) :
    (main env os).1 = [.spawnChild (mainInvocation env)] ∧
    (mainInvocation env).stdout = .inherit ∧
    (mainInvocation env).stderr = .inherit := by
  refine ⟨?_, rfl, rfl⟩
  cases h : subprocessRun os (mainInvocation env) <;> simp [main, h]

/-- C9: a child terminated by signal `N` surfaces as the raw subprocess
returncode `-N`, which `main` returns without clamping or translation; the
launcher's observed status is then the runtime's mapping of that negative
value, `(-N) mod 256`, not `N` itself. -/
theorem signal_negative_returncode (env : Env) (os : OsBehavior) (n : Nat)
    (h : os (mainInvocation env) = .signaled n) :
    (main env os).2 = .ok (-(n : Int)) ∧
    launcherExitStatus env os = ((-(n : Int)) % 256).toNat := by
  have hrun : subprocessRun os (mainInvocation env) = .completed (-(n : Int)) := by
    simp [subprocessRun, h, SpawnOutcome.returncode, mainInvocation_check]
  exact ⟨by simp [main, hrun], by simp [launcherExitStatus, main, hrun, systemExitStatus]⟩

/-- Witness for C9: a child killed by signal 9 makes `main` return `-9`,
observed by the caller as status 247. -/
theorem signal_negative_returncode_witness :
    (main env₀ (fun _ => .signaled 9)).2 = .ok (-(9 : Int)) ∧
    launcherExitStatus env₀ (fun _ => .signaled 9) = ((-(9 : Int)) % 256).toNat := by
  have h := signal_negative_returncode env₀ (fun _ => .signaled 9) 9 rfl
  exact_mod_cast h

/-- C10: `main` never reads the launcher's own argument list: two
invocations differing only in `argv` produce the same effect trace and the
same result, for every OS behaviour. -/
theorem argv_independence (env : Env) (a₁ a₂ : List String) (os : OsBehavior) :
    main { env with argv := a₁ } os = main { env with argv := a₂ } os := rfl

end RunDemo
